import Mathlib

/-!
Shallow embedding of the procedural-terrain core of the New_Horizons
repository (src/vibecode): the multi-layer height field
(`src/utils/terrainUtils.ts` / `src/utils/terrainMath.ts`), the chunk
streaming manager (`src/components/ChunkManager.tsx`), the deterministic
prop scatter (`src/components/PropManager.tsx`), the flora scatter
(`src/components/FloraSystem.tsx`) and the weather particle wrap
(`src/components/Weather.tsx`).

Modelling conventions: JavaScript numbers are modelled as exact rationals
(every IEEE-754 double is a rational, and all of the arithmetic the claims
are about is +, -, *, /, floor and comparisons); the simplex-noise kernel
`noise2D` and the transcendental `Math.sin` are passed as opaque function
parameters, exactly as `noise2D` is a parameter of the source functions;
the unseeded ambient `Math.random` consumed by `FloraSystem` is modelled
as an explicit stream `s : Nat → ℚ` read at an explicit cursor, advanced
exactly where the source calls `Math.random()`.  Vector normalisation
(THREE.Vector3.normalize) is modelled over the real numbers.
-/

set_option allowUnsafeReducibility true in
attribute [semireducible] Rat.add Rat.mul Rat.sub Rat.div Rat.inv Rat.neg Rat.ofScientific

/-- One terrain layer, from `src/types/biome.ts` (`TerrainLayer`). -/
structure TerrainLayer where
  name : String
  noiseScale : ℚ
  heightScale : ℚ
  roughness : ℚ
  offsetX : ℚ
  offsetZ : ℚ
deriving DecidableEq

/-- Contribution of a single layer inside the loop of `getTerrainHeight`
(`src/utils/terrainUtils.ts` lines 12-28): base noise at the layer
frequency, plus half the roughness times noise at twice the frequency,
added only when `layer.roughness > 0`, all scaled by `heightScale`. -/
def layerContrib (noise2D : ℚ → ℚ → ℚ) (globalX globalY : ℚ) (layer : TerrainLayer) : ℚ :=
  let n := noise2D ((globalX + layer.offsetX) * layer.noiseScale)
                   ((globalY + layer.offsetZ) * layer.noiseScale)
  let n' := if layer.roughness > 0 then
      n + 0.5 * layer.roughness * noise2D ((globalX + layer.offsetX) * layer.noiseScale * 2)
                                          ((globalY + layer.offsetZ) * layer.noiseScale * 2)
    else n
  n' * layer.heightScale

/-- Function `getTerrainHeight` from `src/utils/terrainUtils.ts`.  The JS guard
`if (layers && layers.length > 0)` treats a null/undefined list like an
empty one, hence the `Option`; both fall back to single-octave noise at
scale 0.02 and amplitude 5. -/
def getTerrainHeight (globalX globalY : ℚ) (layers : Option (List TerrainLayer))
    (noise2D : ℚ → ℚ → ℚ) : ℚ :=
  match layers with
  | some ls =>
    if ls.isEmpty then noise2D (globalX * 0.02) (globalY * 0.02) * 5
    else (ls.map (layerContrib noise2D globalX globalY)).sum
  | none => noise2D (globalX * 0.02) (globalY * 0.02) * 5

/-- Method `TerrainMath.getHeight` from `src/utils/terrainMath.ts` (lines 24-43):
for every layer it unconditionally adds detail octaves at 4x and 8x the
base frequency, weighted by `0.5*roughness` and `0.25*roughness`.  The
noise function built by the class constructor from the seed is passed
here as a parameter. -/
def TerrainMath.getHeight (x y : ℚ) (layers : List TerrainLayer) (noise2D : ℚ → ℚ → ℚ) : ℚ :=
  (layers.map (fun layer =>
    let lx := x + layer.offsetX
    let ly := y + layer.offsetZ
    (noise2D (lx * layer.noiseScale) (ly * layer.noiseScale)
      + 0.5 * layer.roughness * noise2D (lx * layer.noiseScale * 4) (ly * layer.noiseScale * 4)
      + 0.25 * layer.roughness * noise2D (lx * layer.noiseScale * 8) (ly * layer.noiseScale * 8))
      * layer.heightScale)).sum

/-- Written from the spec's words (section 3, HeightModel), for comparison
with the source translation: `height(worldX, worldZ) =
Σ_layers [ n(layer) + 0.5·roughness·n(2·freq) ] · heightScale` where
`n(f) = noise((worldX+offsetX)·f, (worldZ+offsetZ)·f)`. -/
def specHeightFormula (worldX worldZ : ℚ) (layers : List TerrainLayer)
    (noise2D : ℚ → ℚ → ℚ) : ℚ :=
  (layers.map (fun layer =>
    (noise2D ((worldX + layer.offsetX) * layer.noiseScale)
             ((worldZ + layer.offsetZ) * layer.noiseScale)
      + 0.5 * layer.roughness *
        noise2D ((worldX + layer.offsetX) * (layer.noiseScale * 2))
                ((worldZ + layer.offsetZ) * (layer.noiseScale * 2)))
      * layer.heightScale)).sum

/-- C5: for every coordinate, with the terrain layer list empty or missing,
`getTerrainHeight` equals exactly `noise2D(0.02*x, 0.02*z) * 5`, with no
roughness term. -/
theorem claim_C5_empty_layers_fallback (globalX globalY : ℚ) (noise2D : ℚ → ℚ → ℚ) :
    getTerrainHeight globalX globalY none noise2D = noise2D (0.02 * globalX) (0.02 * globalY) * 5 ∧
    getTerrainHeight globalX globalY (some []) noise2D = noise2D (0.02 * globalX) (0.02 * globalY) * 5 := by
  rw [mul_comm (0.02 : ℚ) globalX, mul_comm (0.02 : ℚ) globalY]
  exact ⟨rfl, rfl⟩

/-- C1 fails as stated: (a) on the empty layer list `getTerrainHeight` takes
the fallback path instead of the (empty) sum; (b) on a layer with negative
roughness `getTerrainHeight` omits the roughness octave that the claimed
formula includes; (c) `TerrainMath.getHeight` adds further octave terms at
4x and 8x frequency, not the claimed single octave at exactly double
frequency. -/
theorem claim_C1_counterexample :
    getTerrainHeight 0 0 (some []) (fun _ _ => 1) ≠ specHeightFormula 0 0 [] (fun _ _ => 1) ∧
    getTerrainHeight 0 0 (some [⟨"L", 1, 1, -1, 0, 0⟩]) (fun _ _ => 1) ≠
      specHeightFormula 0 0 [⟨"L", 1, 1, -1, 0, 0⟩] (fun _ _ => 1) ∧
    TerrainMath.getHeight 0 0 [⟨"L", 1, 1, 1, 0, 0⟩] (fun _ _ => 1) ≠
      specHeightFormula 0 0 [⟨"L", 1, 1, 1, 0, 0⟩] (fun _ _ => 1) := by
  refine ⟨?_, ?_, ?_⟩ <;> decide

/-- C1 amended: for every nonempty layer list all of whose layers have
nonnegative roughness, `getTerrainHeight` equals the claimed sum
`Σ_layers [ n(layer) + 0.5·roughness·n(2·freq) ] · heightScale`; the empty
(or missing) list instead takes the single-octave fallback, a negative
roughness drops the octave term entirely, and `TerrainMath.getHeight`
uses additional octaves at 4x and 8x frequency. -/
theorem claim_C1_amended (globalX globalY : ℚ) (layers : List TerrainLayer)
    (noise2D : ℚ → ℚ → ℚ) (hne : layers ≠ [])
    (hr : ∀ l ∈ layers, 0 ≤ l.roughness) :
    getTerrainHeight globalX globalY (some layers) noise2D =
      specHeightFormula globalX globalY layers noise2D := by
  rw [getTerrainHeight, specHeightFormula]
  rw [if_neg (by simpa [List.isEmpty_iff] using hne)]
  congr 1
  refine List.map_congr_left (fun l hl => ?_)
  rw [layerContrib]
  rcases lt_or_eq_of_le (hr l hl) with h | h
  · rw [if_pos h, mul_assoc (globalX + l.offsetX) l.noiseScale 2,
      mul_assoc (globalY + l.offsetZ) l.noiseScale 2]
  · rw [if_neg (by rw [← h]; exact lt_irrefl 0), ← h]
    ring

/-- C1 witness: the amended equation instantiated on a concrete nonempty
layer list with nonnegative roughness. -/
theorem claim_C1_witness :
    ([(⟨"Base", 1/100, 15, 1/2, 0, 0⟩ : TerrainLayer)] ≠ []) ∧
    (∀ l ∈ [(⟨"Base", 1/100, 15, 1/2, 0, 0⟩ : TerrainLayer)], 0 ≤ l.roughness) ∧
    getTerrainHeight 3 4 (some [⟨"Base", 1/100, 15, 1/2, 0, 0⟩]) (fun x y => x + y) =
      specHeightFormula 3 4 [⟨"Base", 1/100, 15, 1/2, 0, 0⟩] (fun x y => x + y) :=
  ⟨by decide, by decide,
    claim_C1_amended 3 4 [⟨"Base", 1/100, 15, 1/2, 0, 0⟩] (fun x y => x + y)
      (by decide) (by decide)⟩

/-- C8 fails as stated on `TerrainMath.getHeight` (cited by the claim),
which applies the roughness octaves unconditionally, so a negative
roughness subtracts detail there instead of contributing like roughness 0. -/
theorem claim_C8_counterexample :
    TerrainMath.getHeight 0 0 [⟨"L", 1, 1, -1, 0, 0⟩] (fun _ _ => 1) ≠
      TerrainMath.getHeight 0 0 [⟨"L", 1, 1, 0, 0, 0⟩] (fun _ _ => 1) := by
  decide

/-- C8 amended: in `getTerrainHeight` (the height used by terrain, props
and flora) a layer with negative roughness contributes exactly the same
height as the identical layer with roughness 0, because the roughness
octave is added only when roughness > 0; `TerrainMath.getHeight` instead
applies the octaves unconditionally, so negative roughness subtracts
detail there. -/
theorem claim_C8_amended (noise2D : ℚ → ℚ → ℚ) (globalX globalY : ℚ)
    (layer : TerrainLayer) (h : layer.roughness < 0) :
    layerContrib noise2D globalX globalY layer =
      layerContrib noise2D globalX globalY { layer with roughness := 0 } ∧
    getTerrainHeight globalX globalY (some [layer]) noise2D =
      getTerrainHeight globalX globalY (some [{ layer with roughness := 0 }]) noise2D := by
  have hc : layerContrib noise2D globalX globalY layer =
      layerContrib noise2D globalX globalY { layer with roughness := 0 } := by
    rw [layerContrib, layerContrib, if_neg (by simpa using h.asymm), if_neg (by simp)]
  exact ⟨hc, by simpa [getTerrainHeight] using hc⟩

/-- C8 witness: the amended equalities instantiated on a concrete layer
with roughness -1. -/
theorem claim_C8_witness :
    ((⟨"L", 1, 2, -1, 5, 7⟩ : TerrainLayer).roughness < 0) ∧
    (layerContrib (fun x y => x * y) 1 2 ⟨"L", 1, 2, -1, 5, 7⟩ =
      layerContrib (fun x y => x * y) 1 2 { (⟨"L", 1, 2, -1, 5, 7⟩ : TerrainLayer) with roughness := 0 } ∧
    getTerrainHeight 1 2 (some [⟨"L", 1, 2, -1, 5, 7⟩]) (fun x y => x * y) =
      getTerrainHeight 1 2 (some [{ (⟨"L", 1, 2, -1, 5, 7⟩ : TerrainLayer) with roughness := 0 }]) (fun x y => x * y)) :=
  ⟨by decide, claim_C8_amended (fun x y => x * y) 1 2 ⟨"L", 1, 2, -1, 5, 7⟩ (by decide)⟩

/-- JS `Math.round`: round half toward positive infinity, as used by
`ChunkManager` (`src/components/ChunkManager.tsx` lines 34-35) on
`camera.position / CHUNK_SIZE`. -/
def jsRound (q : ℚ) : ℤ := ⌊q + 1/2⌋

/-- The chunk key string `"cx,cz"` built in `ChunkManager` (line 47) and in
the `Chunk` data model. -/
def chunkKey (cx cz : ℤ) : String := toString cx ++ "," ++ toString cz

/-- One tick of `ChunkManager`'s `useFrame` body (lines 32-52): with
`CHUNK_SIZE = 100` and `RENDER_DISTANCE = 2`, the list of chunk
coordinates `(currentChunkX + x, currentChunkZ + z)` for `x, z` running
from -2 to 2, in source loop order. -/
def chunkManagerTick (obsX obsZ : ℚ) : List (ℤ × ℤ) :=
  let currentChunkX := jsRound (obsX / 100)
  let currentChunkZ := jsRound (obsZ / 100)
  (List.range 5).flatMap (fun (dx : Nat) =>
    (List.range 5).map (fun (dz : Nat) =>
      (currentChunkX + (dx : ℤ) - 2, currentChunkZ + (dz : ℤ) - 2)))

/-- The comparison string `chunks.map(c => c.key).sort().join('|')` used by
`ChunkManager`'s `setChunks` diff (lines 54-59).  JS `Array.sort()` on the
key strings is lexicographic on UTF-16 code units; the keys here are ASCII,
where Lean's `String` order coincides, and any correct sort of a
duplicate-free list is canonical. -/
def sortedKeysJoined (chunks : List (ℤ × ℤ)) : String :=
  String.intercalate "|" (List.insertionSort (· ≤ ·) (chunks.map (fun c => chunkKey c.1 c.2)))

/-- The `setChunks(prev => ...)` updater of `ChunkManager` (lines 54-59):
keeps the previous chunk list object when the sorted-and-joined key
strings agree, otherwise replaces it with the new list. -/
def setChunksUpdate (prev next : List (ℤ × ℤ)) : List (ℤ × ℤ) :=
  if sortedKeysJoined prev = sortedKeysJoined next then prev else next

/-- Membership characterisation of one chunk-manager tick: exactly the
5x5 window of coordinates centered on the rounded observer chunk. -/
theorem chunkManagerTick_mem (obsX obsZ : ℚ) (p : ℤ × ℤ) :
    p ∈ chunkManagerTick obsX obsZ ↔
      jsRound (obsX / 100) - 2 ≤ p.1 ∧ p.1 ≤ jsRound (obsX / 100) + 2 ∧
      jsRound (obsZ / 100) - 2 ≤ p.2 ∧ p.2 ≤ jsRound (obsZ / 100) + 2 := by
  unfold chunkManagerTick
  simp only [List.mem_flatMap, List.mem_map, List.mem_range]
  constructor
  · rintro ⟨dx, hdx, dz, hdz, rfl⟩
    dsimp only
    omega
  · rintro ⟨h1, h2, h3, h4⟩
    refine ⟨(p.1 - jsRound (obsX / 100) + 2).toNat, by omega,
            (p.2 - jsRound (obsZ / 100) + 2).toNat, by omega, ?_⟩
    obtain ⟨a, b⟩ := p
    simp only [Prod.mk.injEq]
    constructor <;> omega

/-- Every chunk-manager tick output is duplicate-free. -/
theorem chunkManagerTick_nodup (obsX obsZ : ℚ) : (chunkManagerTick obsX obsZ).Nodup := by
  unfold chunkManagerTick
  refine List.nodup_flatMap.mpr ⟨?_, ?_⟩
  · intro dx _
    refine List.Nodup.map ?_ (List.nodup_range 5)
    intro b1 b2 hb
    simp only [Prod.mk.injEq] at hb
    omega
  · refine List.Pairwise.imp ?_ (List.pairwise_lt_range 5)
    intro a b hab x hxa hxb
    simp only [List.mem_map] at hxa hxb
    obtain ⟨da, _, rfl⟩ := hxa
    obtain ⟨db, _, hdb⟩ := hxb
    simp only [Prod.mk.injEq] at hdb
    omega

/-- C3: one tick of the chunk manager produces exactly the chunk
coordinates `(centerX+dx, centerZ+dz)` for `dx, dz ∈ [-2, 2]` with
`chunkSize = 100`, where `center = round(observer/chunkSize)`; at
observer `(250, 250)` the active set is exactly the 5x5 block centered
at `(3, 3)`. -/
theorem claim_C3_active_window (obsX obsZ : ℚ) (p : ℤ × ℤ) :
    (p ∈ chunkManagerTick obsX obsZ ↔
      jsRound (obsX / 100) - 2 ≤ p.1 ∧ p.1 ≤ jsRound (obsX / 100) + 2 ∧
      jsRound (obsZ / 100) - 2 ≤ p.2 ∧ p.2 ≤ jsRound (obsZ / 100) + 2) ∧
    (p ∈ chunkManagerTick 250 250 ↔
      3 - 2 ≤ p.1 ∧ p.1 ≤ 3 + 2 ∧ 3 - 2 ≤ p.2 ∧ p.2 ≤ 3 + 2) := by
  refine ⟨chunkManagerTick_mem obsX obsZ p, ?_⟩
  have h3 : jsRound (250 / 100) = 3 := by decide
  simpa [h3] using chunkManagerTick_mem 250 250 p

/-- C7: when the previous chunk list and a new tick agree as a set of
chunk coordinates (compared by membership, not by order or instance
identity - `prev` is any duplicate-free chunk list, in particular any
reordering of an earlier tick's output), the `setChunks` updater returns
the previous list object itself, so no rebuild is triggered: the
sorted-key comparison detects set equality and takes the `prev` branch
even when the two lists differ as lists. -/
theorem claim_C7_noop_stability (prev : List (ℤ × ℤ)) (o2x o2z : ℚ)
    (hnd : prev.Nodup)
    (h : ∀ p : ℤ × ℤ, p ∈ prev ↔ p ∈ chunkManagerTick o2x o2z) :
    setChunksUpdate prev (chunkManagerTick o2x o2z) = prev := by
  have hperm : List.Perm prev (chunkManagerTick o2x o2z) :=
    (List.perm_ext_iff_of_nodup hnd (chunkManagerTick_nodup o2x o2z)).mpr h
  have hkeys : List.Perm (prev.map (fun c => chunkKey c.1 c.2))
      ((chunkManagerTick o2x o2z).map (fun c => chunkKey c.1 c.2)) :=
    hperm.map _
  have hsort : List.insertionSort (· ≤ ·) (prev.map (fun c => chunkKey c.1 c.2)) =
      List.insertionSort (· ≤ ·)
        ((chunkManagerTick o2x o2z).map (fun c => chunkKey c.1 c.2)) :=
    List.eq_of_perm_of_sorted
      ((List.perm_insertionSort _ _).trans (hkeys.trans (List.perm_insertionSort _ _).symm))
      (List.sorted_insertionSort _ _) (List.sorted_insertionSort _ _)
  unfold setChunksUpdate sortedKeysJoined
  rw [hsort, if_pos rfl]

/-- C7 witness: the reversed output of the tick at observer (10,-10) has
the same coordinate set as the tick at (0,0) but is a different list
(opposite order), and the updater still returns that previous list
object - so the sorted-key guard, not list identity, decides. -/
theorem claim_C7_witness :
    ((chunkManagerTick 10 (-10)).reverse.Nodup) ∧
    (∀ p : ℤ × ℤ, p ∈ (chunkManagerTick 10 (-10)).reverse ↔ p ∈ chunkManagerTick 0 0) ∧
    setChunksUpdate (chunkManagerTick 10 (-10)).reverse (chunkManagerTick 0 0) =
      (chunkManagerTick 10 (-10)).reverse :=
  have e : chunkManagerTick 10 (-10) = chunkManagerTick 0 0 := by decide
  ⟨by decide,
   fun p => by rw [List.mem_reverse, e],
   claim_C7_noop_stability (chunkManagerTick 10 (-10)).reverse 0 0 (by decide)
     (fun p => by rw [List.mem_reverse, e])⟩

/-- JS `| 0`: wrap an integer to the signed 32-bit range. -/
def wrap32 (x : ℤ) : ℤ := (x + 2 ^ 31) % 2 ^ 32 - 2 ^ 31

/-- Function `hashString` from `src/components/PropManager.tsx` (lines 83-90):
`hash = (hash << 5) - hash + charCode` with an `| 0` wrap on the shift and
on the store, then `Math.abs`.  `charCodeAt` returns UTF-16 code units;
on the ASCII biome names used here Lean's codepoints coincide. -/
def hashString (str : String) : ℤ :=
  |str.data.foldl (fun hash c => wrap32 (wrap32 (hash * 32) - hash + (c.toNat : ℤ))) 0|

/-- Function `seededRandom` from `PropManager` (lines 17-20):
`frac(Math.sin(seed) * 10000)`, with `Math.sin` passed as an opaque
parameter. -/
def seededRandom (sinF : ℚ → ℚ) (seed : ℚ) : ℚ :=
  let x := sinF seed * 10000
  x - ⌊x⌋

/-- A prop definition from `src/types/biome.ts` / the biome prop list. -/
structure PropDef where
  id : String
  name : String
  prompt : String
  density : ℚ
  baseScale : ℚ
deriving DecidableEq

/-- The biome data consumed by `PropManager`: name, terrain layers, water
level, prop definition list. -/
structure PropBiome where
  name : String
  layers : List TerrainLayer
  waterLevel : ℚ
  props : List PropDef
deriving DecidableEq

/-- One candidate of the inner `PropManager` loop (lines 35-53): its
`innerSeed`, local and global position, terrain height, and the raw
(un-normalised) x/z components `hL - hR` and `hD - hU` of the
central-difference normal; the y component is the constant `2 * h` with
`h = 0.2`, and normalisation is applied in `attachedNormal` below. -/
structure PropCand where
  seed : ℤ
  lx : ℚ
  lz : ℚ
  gx : ℚ
  gz : ℚ
  gy : ℚ
  nx : ℚ
  nz : ℚ
deriving DecidableEq

/-- Body of one iteration of the `PropManager` candidate loop. -/
def propCandidate (sinF : ℚ → ℚ) (noise2D : ℚ → ℚ → ℚ) (layers : List TerrainLayer)
    (chunkX chunkZ : ℤ) (chunkSize : ℚ) (innerSeed : ℤ) : PropCand :=
  let lx := (seededRandom sinF (innerSeed : ℚ) - 0.5) * chunkSize
  let lz := (seededRandom sinF ((innerSeed : ℚ) + 100) - 0.5) * chunkSize
  let gx := (chunkX : ℚ) * chunkSize + lx
  let gz := (chunkZ : ℚ) * chunkSize + lz
  let gy := getTerrainHeight gx gz (some layers) noise2D
  let h : ℚ := 0.2
  let hL := getTerrainHeight (gx - h) gz (some layers) noise2D
  let hR := getTerrainHeight (gx + h) gz (some layers) noise2D
  let hD := getTerrainHeight gx (gz - h) (some layers) noise2D
  let hU := getTerrainHeight gx (gz + h) (some layers) noise2D
  { seed := innerSeed, lx := lx, lz := lz, gx := gx, gz := gz, gy := gy,
    nx := hL - hR, nz := hD - hU }

/-- The inner `for (let i = 0; i < count; i++)` loop of `PropManager`
(lines 35-64): `seedValue` is post-incremented each iteration, and a
candidate is pushed exactly when `gy > waterLevel`. -/
def propDefRun (sinF : ℚ → ℚ) (noise2D : ℚ → ℚ → ℚ) (layers : List TerrainLayer)
    (waterLevel : ℚ) (chunkX chunkZ : ℤ) (chunkSize : ℚ) : ℕ → ℤ → List PropCand
  | 0, _ => []
  | n + 1, seedValue =>
    let cand := propCandidate sinF noise2D layers chunkX chunkZ chunkSize seedValue
    if cand.gy > waterLevel then
      cand :: propDefRun sinF noise2D layers waterLevel chunkX chunkZ chunkSize n (seedValue + 1)
    else
      propDefRun sinF noise2D layers waterLevel chunkX chunkZ chunkSize n (seedValue + 1)

/-- Instrumented version of `propDefRun` that records every candidate the
loop evaluates, kept or rejected, with the same seed progression. -/
def propDefTrace (sinF : ℚ → ℚ) (noise2D : ℚ → ℚ → ℚ) (layers : List TerrainLayer)
    (chunkX chunkZ : ℤ) (chunkSize : ℚ) : ℕ → ℤ → List PropCand
  | 0, _ => []
  | n + 1, seedValue =>
    propCandidate sinF noise2D layers chunkX chunkZ chunkSize seedValue ::
      propDefTrace sinF noise2D layers chunkX chunkZ chunkSize n (seedValue + 1)

/-- The seed base of `PropManager` line 32:
`hashString(biome.name) + propIndex * 1000 + chunkX * 31 + chunkZ * 17`. -/
def propSeedBase (biomeName : String) (propIndex : ℕ) (chunkX chunkZ : ℤ) : ℤ :=
  hashString biomeName + (propIndex : ℤ) * 1000 + chunkX * 31 + chunkZ * 17

/-- The full `spawnedProps` computation of `PropManager` (lines 24-72):
for each prop definition (with its list index), run the candidate loop
with `count = floor(density * 20)` iterations from the definition's seed
base, keeping candidates above water level. -/
def propSpawned (sinF : ℚ → ℚ) (noise2D : ℚ → ℚ → ℚ) (biome : PropBiome)
    (chunkX chunkZ : ℤ) (chunkSize : ℚ) : List PropCand :=
  biome.props.enum.flatMap (fun pair =>
    propDefRun sinF noise2D biome.layers biome.waterLevel chunkX chunkZ chunkSize
      ((pair.2.density * 20).floor.toNat)
      (propSeedBase biome.name pair.1 chunkX chunkZ))

/-- Instrumented version of `propSpawned` recording every candidate drawn,
kept or rejected. -/
def propTrace (sinF : ℚ → ℚ) (noise2D : ℚ → ℚ → ℚ) (biome : PropBiome)
    (chunkX chunkZ : ℤ) (chunkSize : ℚ) : List PropCand :=
  biome.props.enum.flatMap (fun pair =>
    propDefTrace sinF noise2D biome.layers chunkX chunkZ chunkSize
      ((pair.2.density * 20).floor.toNat)
      (propSeedBase biome.name pair.1 chunkX chunkZ))

/-- Model of `THREE.Vector3.normalize`: divide by the Euclidean length, or by 1
when the length is 0 (`divideScalar(length || 1)`), over the reals. -/
noncomputable def v3normalize (x y z : ℝ) : ℝ × ℝ × ℝ :=
  let l := Real.sqrt (x * x + y * y + z * z)
  if l = 0 then (x, y, z) else (x / l, y / l, z / l)

/-- The normal `PropManager` attaches to a spawned prop (line 52):
`new THREE.Vector3(hL - hR, 2 * h, hD - hU).normalize()` with `h = 0.2`. -/
noncomputable def attachedNormal (c : PropCand) : ℝ × ℝ × ℝ :=
  v3normalize (c.nx : ℝ) (2 * (0.2 : ℝ)) (c.nz : ℝ)

/-- Model of `THREE.MathUtils.clamp(value, min, max) = Math.max(min, Math.min(max, value))`. -/
def clampQ (value lo hi : ℚ) : ℚ := max lo (min hi value)

/-- The biome inputs consumed by the `FloraSystem` placement loop
(`src/components/FloraSystem.tsx`): terrain layers, water level, and the
temperature/gravity parameters driving morphology.  The atmosphere
density value only shifts instance colors, which are not modelled. -/
structure FloraParams where
  layers : List TerrainLayer
  waterLevel : ℚ
  temperature : ℚ
  gravity : ℚ
deriving DecidableEq

/-- Value `tempNorm` of `FloraSystem` lines 66-72:
`(clamp(temperature, -50, 100) + 50) / 150`. -/
def tempNormOf (fp : FloraParams) : ℚ := (clampQ fp.temperature (-50) 100 + 50) / 150

/-- Value `gravityEffect` of `FloraSystem` line 65: `clamp(gravity, 0.5, 2.0)`. -/
def gravityEffectOf (fp : FloraParams) : ℚ := clampQ fp.gravity 0.5 2.0

/-- One flora instance placed by `FloraSystem` (lines 103-187): local
position data `(rX, rZ, y)` (the instance position is `(rX, -rZ, y)` in
local group space), the morphology bucket (1 = tree, 2 = spike,
3 = bush), the raw cross-product normal, the instance scale, and the raw
yaw/hue random draws (the derived quaternion and color are rendering
state written to GPU buffers and are functions of these draws). -/
structure FloraObj where
  rX : ℚ
  rZ : ℚ
  y : ℚ
  bucket : ℕ
  nx : ℚ
  ny : ℚ
  nz : ℚ
  sx : ℚ
  sy : ℚ
  sz : ℚ
  yawDraw : ℚ
  hueDraw : ℚ
deriving DecidableEq

/-- A flora candidate as evaluated before the water filter: the two
position draws and the computed terrain height. -/
structure FloraCand where
  rX : ℚ
  rZ : ℚ
  y : ℚ
deriving DecidableEq

/-- Projection of a placed flora instance to its candidate data. -/
def candOf (o : FloraObj) : FloraCand := { rX := o.rX, rZ := o.rZ, y := o.y }

/-- The `FloraSystem` placement loop (lines 76-188), as a recursion over
the remaining iteration count (`COUNT = 1000` at the top level).  `st` is
the ambient unseeded `Math.random` stream and `c` the cursor of the next
draw: each iteration draws `rX, rZ`; a water-rejected candidate
(`y < waterLevel - 1`) consumes nothing more; a kept candidate draws the
morphology `rand`, `varScale`, yaw and hue, in source order.  The
`currentIndex >= COUNT` capacity guard of line 120 is included verbatim
(it consumes `rX, rZ, rand`). -/
def floraAux (noise2D : ℚ → ℚ → ℚ) (fp : FloraParams) (chunkX chunkZ : ℤ)
    (st : ℕ → ℚ) : ℕ → ℕ → ℕ → ℕ → ℕ → List FloraObj
  | 0, _, _, _, _ => []
  | fuel + 1, c, idx1, idx2, idx3 =>
    let size : ℚ := 100
    let rX := st c * size - size / 2
    let rZ := st (c + 1) * size - size / 2
    let globalX := (chunkX : ℚ) * size + rX
    let globalY := (chunkZ : ℚ) * size + rZ
    let y := getTerrainHeight globalX globalY (some fp.layers) noise2D
    let d : ℚ := 0.5
    let hL := getTerrainHeight (globalX - d) globalY (some fp.layers) noise2D
    let hR := getTerrainHeight (globalX + d) globalY (some fp.layers) noise2D
    let hD := getTerrainHeight globalX (globalY - d) (some fp.layers) noise2D
    let hU := getTerrainHeight globalX (globalY + d) (some fp.layers) noise2D
    if y < fp.waterLevel - 1 then
      floraAux noise2D fp chunkX chunkZ st fuel (c + 2) idx1 idx2 idx3
    else
      let rand := st (c + 2)
      let bucket : ℕ :=
        if tempNormOf fp < 0.3 ∧ rand > 0.4 then 2
        else if tempNormOf fp > 0.7 ∧ rand > 0.4 then 3
        else 1
      let currentIndex := if bucket = 2 then idx2 else if bucket = 3 then idx3 else idx1
      if 1000 ≤ currentIndex then
        floraAux noise2D fp chunkX chunkZ st fuel (c + 3) idx1 idx2 idx3
      else
        let gravityEffect := gravityEffectOf fp
        let gFactor := 1 / gravityEffect
        let varScale := 0.8 + st (c + 3) * 1.5
        let scl0 : ℚ × ℚ × ℚ := (varScale, varScale, varScale)
        let scl1 : ℚ × ℚ × ℚ :=
          if gravityEffect > 1.2 then (scl0.1 * 1.5, scl0.2.1 * 0.5, scl0.2.2 * 1.5)
          else if gravityEffect < 0.8 then (scl0.1 * 0.7, scl0.2.1 * 2.0, scl0.2.2 * 0.7)
          else scl0
        let scl2 : ℚ × ℚ × ℚ :=
          if bucket = 1 then
            (scl1.1 * (1.5 * gFactor), scl1.2.1 * (1.5 * gFactor), scl1.2.2 * (1.5 * gFactor))
          else scl1
        let obj : FloraObj :=
          { rX := rX, rZ := rZ, y := y, bucket := bucket,
            nx := (hU - hD) * 0 - (-(2 * d)) * (hR - hL),
            ny := (-(2 * d)) * (2 * d) - 0 * 0,
            nz := 0 * (hR - hL) - (hU - hD) * (2 * d),
            sx := scl2.1, sy := scl2.2.1, sz := scl2.2.2,
            yawDraw := st (c + 4), hueDraw := st (c + 5) }
        obj ::
          (if bucket = 2 then floraAux noise2D fp chunkX chunkZ st fuel (c + 6) idx1 (idx2 + 1) idx3
           else if bucket = 3 then floraAux noise2D fp chunkX chunkZ st fuel (c + 6) idx1 idx2 (idx3 + 1)
           else floraAux noise2D fp chunkX chunkZ st fuel (c + 6) (idx1 + 1) idx2 idx3)

/-- Instrumented version of `floraAux` that records every candidate the
loop evaluates (kept or rejected), with identical stream-cursor and
index-state progression. -/
def floraTraceAux (noise2D : ℚ → ℚ → ℚ) (fp : FloraParams) (chunkX chunkZ : ℤ)
    (st : ℕ → ℚ) : ℕ → ℕ → ℕ → ℕ → ℕ → List FloraCand
  | 0, _, _, _, _ => []
  | fuel + 1, c, idx1, idx2, idx3 =>
    let size : ℚ := 100
    let rX := st c * size - size / 2
    let rZ := st (c + 1) * size - size / 2
    let globalX := (chunkX : ℚ) * size + rX
    let globalY := (chunkZ : ℚ) * size + rZ
    let y := getTerrainHeight globalX globalY (some fp.layers) noise2D
    let cand : FloraCand := { rX := rX, rZ := rZ, y := y }
    if y < fp.waterLevel - 1 then
      cand :: floraTraceAux noise2D fp chunkX chunkZ st fuel (c + 2) idx1 idx2 idx3
    else
      let rand := st (c + 2)
      let bucket : ℕ :=
        if tempNormOf fp < 0.3 ∧ rand > 0.4 then 2
        else if tempNormOf fp > 0.7 ∧ rand > 0.4 then 3
        else 1
      let currentIndex := if bucket = 2 then idx2 else if bucket = 3 then idx3 else idx1
      if 1000 ≤ currentIndex then
        cand :: floraTraceAux noise2D fp chunkX chunkZ st fuel (c + 3) idx1 idx2 idx3
      else
        cand ::
          (if bucket = 2 then floraTraceAux noise2D fp chunkX chunkZ st fuel (c + 6) idx1 (idx2 + 1) idx3
           else if bucket = 3 then floraTraceAux noise2D fp chunkX chunkZ st fuel (c + 6) idx1 idx2 (idx3 + 1)
           else floraTraceAux noise2D fp chunkX chunkZ st fuel (c + 6) (idx1 + 1) idx2 idx3)

/-- The full `FloraSystem` placement for one chunk: `COUNT = 1000`
candidates starting from stream cursor 0 with all instance counters 0. -/
def floraScatter (noise2D : ℚ → ℚ → ℚ) (fp : FloraParams) (chunkX chunkZ : ℤ)
    (st : ℕ → ℚ) : List FloraObj :=
  floraAux noise2D fp chunkX chunkZ st 1000 0 0 0 0

/-- Instrumented version of `floraScatter` recording all 1000 candidates. -/
def floraTrace (noise2D : ℚ → ℚ → ℚ) (fp : FloraParams) (chunkX chunkZ : ℤ)
    (st : ℕ → ℚ) : List FloraCand :=
  floraTraceAux noise2D fp chunkX chunkZ st 1000 0 0 0 0

/-- One chunk's scatter output, props and flora together, as consumed by
a chunk's renderable group: `PropManager` reads no ambient randomness,
`FloraSystem` reads the ambient `Math.random` stream `st`. -/
def scatterChunk (sinF : ℚ → ℚ) (noise2D : ℚ → ℚ → ℚ) (biome : PropBiome)
    (fp : FloraParams) (chunkX chunkZ : ℤ) (chunkSize : ℚ) (st : ℕ → ℚ) :
    List PropCand × List FloraObj :=
  (propSpawned sinF noise2D biome chunkX chunkZ chunkSize,
   floraScatter noise2D fp chunkX chunkZ st)

/-- The prop candidate loop keeps exactly the candidates above water
level: the kept list is the filtered trace. -/
theorem propDefRun_eq_filter (sinF : ℚ → ℚ) (noise2D : ℚ → ℚ → ℚ)
    (layers : List TerrainLayer) (waterLevel : ℚ) (chunkX chunkZ : ℤ) (chunkSize : ℚ) :
    ∀ (n : ℕ) (seedValue : ℤ),
      propDefRun sinF noise2D layers waterLevel chunkX chunkZ chunkSize n seedValue =
        (propDefTrace sinF noise2D layers chunkX chunkZ chunkSize n seedValue).filter
          (fun c => c.gy > waterLevel) := by
  intro n
  induction n with
  | zero => intro seedValue; rfl
  | succ k ih =>
    intro seedValue
    simp only [propDefRun, propDefTrace, List.filter_cons]
    by_cases h :
        (propCandidate sinF noise2D layers chunkX chunkZ chunkSize seedValue).gy > waterLevel
    · simp [h, ih]
    · simp [h, ih]

/-- The flora placement loop keeps exactly the candidates at or above
`waterLevel - 1`, provided the instance counters cannot hit the capacity
guard (which holds from the real start state, where at most 1000
placements occur across the three meshes). -/
theorem floraAux_map_candOf (noise2D : ℚ → ℚ → ℚ) (fp : FloraParams)
    (chunkX chunkZ : ℤ) (st : ℕ → ℚ) :
    ∀ (fuel c idx1 idx2 idx3 : ℕ), idx1 + idx2 + idx3 + fuel ≤ 1000 →
      (floraAux noise2D fp chunkX chunkZ st fuel c idx1 idx2 idx3).map candOf =
        (floraTraceAux noise2D fp chunkX chunkZ st fuel c idx1 idx2 idx3).filter
          (fun cd => ¬(cd.y < fp.waterLevel - 1)) := by
  intro fuel
  induction fuel with
  | zero => intro c i1 i2 i3 _; rfl
  | succ k ih =>
    intro c i1 i2 i3 hle
    simp only [floraAux, floraTraceAux]
    split
    next hw =>
      simp only [List.filter_cons, decide_eq_true_eq]
      rw [if_neg (not_not_intro hw)]
      exact ih _ _ _ _ (by omega)
    next hw =>
      generalize hB : (if tempNormOf fp < 0.3 ∧ st (c + 2) > 0.4 then (2 : ℕ)
        else if tempNormOf fp > 0.7 ∧ st (c + 2) > 0.4 then 3 else 1) = b
      generalize hI : (if b = 2 then i2 else if b = 3 then i3 else i1) = ci
      have hci : ci = i1 ∨ ci = i2 ∨ ci = i3 := by split_ifs at hI <;> omega
      split
      next hcap => exfalso; omega
      next hcap =>
        simp only [List.map_cons, List.filter_cons, decide_eq_true_eq]
        rw [if_pos hw]
        refine congrArg₂ List.cons rfl ?_
        split
        next => exact ih _ _ _ _ (by omega)
        next =>
          split
          next => exact ih _ _ _ _ (by omega)
          next => exact ih _ _ _ _ (by omega)

/-- C4: in flora scatter a candidate is kept iff its height is not below
`waterLevel - 1` (the trace filtered by the water test), and in prop
scatter a candidate is kept iff its height is strictly above
`waterLevel`; no candidate passing the respective test is dropped. -/
theorem claim_C4_water_rejection (sinF : ℚ → ℚ) (noise2D : ℚ → ℚ → ℚ) (biome : PropBiome)
    (fp : FloraParams) (chunkX chunkZ : ℤ) (chunkSize : ℚ) (st : ℕ → ℚ) :
    propSpawned sinF noise2D biome chunkX chunkZ chunkSize =
      (propTrace sinF noise2D biome chunkX chunkZ chunkSize).filter
        (fun c => c.gy > biome.waterLevel) ∧
    (floraScatter noise2D fp chunkX chunkZ st).map candOf =
      (floraTrace noise2D fp chunkX chunkZ st).filter
        (fun cd => ¬(cd.y < fp.waterLevel - 1)) := by
  constructor
  · unfold propSpawned propTrace
    rw [List.filter_flatMap]
    simp only [propDefRun_eq_filter]
  · exact floraAux_map_candOf noise2D fp chunkX chunkZ st 1000 0 0 0 0 (by omega)

/-- Streams that agree on every index consumed by the flora loop produce
identical placements. -/
theorem floraAux_stream_agree (noise2D : ℚ → ℚ → ℚ) (fp : FloraParams)
    (chunkX chunkZ : ℤ) (s1 s2 : ℕ → ℚ) :
    ∀ (fuel c idx1 idx2 idx3 : ℕ), (∀ n, n < c + 6 * fuel → s1 n = s2 n) →
      floraAux noise2D fp chunkX chunkZ s1 fuel c idx1 idx2 idx3 =
        floraAux noise2D fp chunkX chunkZ s2 fuel c idx1 idx2 idx3 := by
  intro fuel
  induction fuel with
  | zero => intro c i1 i2 i3 _; rfl
  | succ k ih =>
    intro c i1 i2 i3 h
    have e0 : s1 c = s2 c := h c (by omega)
    have e1 : s1 (c + 1) = s2 (c + 1) := h _ (by omega)
    have e2 : s1 (c + 2) = s2 (c + 2) := h _ (by omega)
    have e3 : s1 (c + 3) = s2 (c + 3) := h _ (by omega)
    have e4 : s1 (c + 4) = s2 (c + 4) := h _ (by omega)
    have e5 : s1 (c + 5) = s2 (c + 5) := h _ (by omega)
    simp only [floraAux, e0, e1, e2, e3, e4, e5]
    repeat'
      first
      | exact ih _ _ _ _ (fun n hn => h n (by omega))
      | (refine congrArg₂ List.cons rfl ?_)
      | split

/-- C2 fails as stated: flora placement reads the ambient unseeded
`Math.random` stream, so two runs of the chunk scatter with identical
(biome, chunk) inputs but different ambient stream states produce
different flora lists (here the first placed instance moves from
rX = -50 to rX = 0). -/
theorem claim_C2_counterexample :
    scatterChunk (fun _ => 0) (fun _ _ => 0) ⟨"", [], 0, []⟩ ⟨[], 0, 20, 1⟩ 0 0 100
        (fun _ => 0) ≠
      scatterChunk (fun _ => 0) (fun _ _ => 0) ⟨"", [], 0, []⟩ ⟨[], 0, 20, 1⟩ 0 0 100
        (fun _ => 1 / 2) := by
  intro hEq
  have h2 : (floraScatter (fun _ _ => 0) ⟨[], 0, 20, 1⟩ 0 0 (fun _ => 0)).head? =
      (floraScatter (fun _ _ => 0) ⟨[], 0, 20, 1⟩ 0 0 (fun _ => 1 / 2)).head? :=
    congrArg (fun t => t.2.head?) hEq
  exact absurd h2 (by decide)

/-- C2 amended: prop scatter is a pure function of (biome, chunk, noise,
sin) and never reads the ambient random stream, and flora scatter is
reproducible exactly when the ambient `Math.random` stream is replayed:
two runs whose streams agree on the (at most 6 x 1000) consumed draws
yield identical prop and flora lists; with different ambient stream
states the flora lists may differ. -/
theorem claim_C2_amended (sinF : ℚ → ℚ) (noise2D : ℚ → ℚ → ℚ) (biome : PropBiome)
    (fp : FloraParams) (chunkX chunkZ : ℤ) (chunkSize : ℚ) (s1 s2 : ℕ → ℚ)
    (h : ∀ n, n < 6000 → s1 n = s2 n) :
    scatterChunk sinF noise2D biome fp chunkX chunkZ chunkSize s1 =
      scatterChunk sinF noise2D biome fp chunkX chunkZ chunkSize s2 := by
  unfold scatterChunk floraScatter
  exact congrArg _
    (floraAux_stream_agree noise2D fp chunkX chunkZ s1 s2 1000 0 0 0 0
      (fun n hn => h n (by omega)))

/-- C2 witness: a constant-zero stream and a stream that only deviates
from index 7000 on agree below 6000, so the scatter outputs coincide. -/
theorem claim_C2_witness :
    (∀ n, n < 6000 → (fun _ : ℕ => (0 : ℚ)) n = (fun k : ℕ => if 7000 ≤ k then 1 else 0) n) ∧
    scatterChunk (fun _ => 0) (fun _ _ => 0) ⟨"", [], 0, []⟩ ⟨[], 0, 20, 1⟩ 0 0 100
        (fun _ : ℕ => (0 : ℚ)) =
      scatterChunk (fun _ => 0) (fun _ _ => 0) ⟨"", [], 0, []⟩ ⟨[], 0, 20, 1⟩ 0 0 100
        (fun k : ℕ => if 7000 ≤ k then 1 else 0) :=
  ⟨fun n hn => (if_neg (by omega : ¬ 7000 ≤ n)).symm,
   claim_C2_amended (fun _ => 0) (fun _ _ => 0) ⟨"", [], 0, []⟩ ⟨[], 0, 20, 1⟩ 0 0 100 _ _
     (fun n hn => (if_neg (by omega : ¬ 7000 ≤ n)).symm)⟩

/-- The seed values of the candidates drawn for one prop definition are
consecutive, starting at the definition's base seed. -/
theorem propDefTrace_seeds (sinF : ℚ → ℚ) (noise2D : ℚ → ℚ → ℚ)
    (layers : List TerrainLayer) (chunkX chunkZ : ℤ) (chunkSize : ℚ) :
    ∀ (n : ℕ) (seedValue : ℤ),
      (propDefTrace sinF noise2D layers chunkX chunkZ chunkSize n seedValue).map
          (fun c => c.seed) =
        (List.range n).map (fun k : ℕ => seedValue + (k : ℤ)) := by
  intro n
  induction n with
  | zero => intro seedValue; rfl
  | succ k ih =>
    intro seedValue
    simp only [propDefTrace, List.map_cons, ih, List.range_succ_eq_map, List.map_map]
    refine congrArg₂ List.cons (by simp [propCandidate]) ?_
    refine List.map_congr_left fun j hj => ?_
    simp only [Function.comp_apply]
    push_cast
    ring

/-- The candidate loop for one prop definition draws exactly `n`
candidates when run for `n` iterations. -/
theorem propDefTrace_length (sinF : ℚ → ℚ) (noise2D : ℚ → ℚ → ℚ)
    (layers : List TerrainLayer) (chunkX chunkZ : ℤ) (chunkSize : ℚ) :
    ∀ (n : ℕ) (seedValue : ℤ),
      (propDefTrace sinF noise2D layers chunkX chunkZ chunkSize n seedValue).length = n := by
  intro n
  induction n with
  | zero => intro seedValue; rfl
  | succ k ih => intro seedValue; simp [propDefTrace, ih]

/-- The shift-based hash step of the source equals the classic
31-multiplier rolling hash step, both folded to 32-bit signed. -/
theorem hashString_foldl_31 (cs : List Char) :
    ∀ (h : ℤ),
      cs.foldl (fun hash c => wrap32 (wrap32 (hash * 32) - hash + (c.toNat : ℤ))) h =
        cs.foldl (fun hash c => wrap32 (31 * hash + (c.toNat : ℤ))) h := by
  induction cs with
  | nil => intro h; rfl
  | cons c cs ih =>
    intro h
    simp only [List.foldl_cons]
    rw [show wrap32 (wrap32 (h * 32) - h + (c.toNat : ℤ)) = wrap32 (31 * h + (c.toNat : ℤ))
      from by unfold wrap32; omega]
    exact ih _

/-- Batteries' `Rat.floor` is the `FloorRing` floor of `ℚ`. -/
theorem ratFloor_eq_intFloor (q : ℚ) : q.floor = ⌊q⌋ := rfl

/-- C6: for the definition at index `i` of the biome's prop list, the
candidate loop runs from base seed
`hashString(biome.name) + i*1000 + chunkX*31 + chunkZ*17` (the hash being
the 31-multiplier rolling hash folded to non-negative), drawing
`floor(density * 20)` candidates with consecutive seeds; density 0 gives
zero candidates and a larger density never gives fewer. -/
theorem claim_C6_seed_and_count (sinF : ℚ → ℚ) (noise2D : ℚ → ℚ → ℚ) (biome : PropBiome)
    (chunkX chunkZ : ℤ) (chunkSize : ℚ) (i : ℕ) (d : PropDef) (q : ℚ)
    (hget : biome.props[i]? = some d) (hd : 0 ≤ d.density) (hq : d.density ≤ q) :
    (i, d) ∈ biome.props.enum ∧
    ((propDefTrace sinF noise2D biome.layers chunkX chunkZ chunkSize
        ((d.density * 20).floor.toNat) (propSeedBase biome.name i chunkX chunkZ)).map
          (fun c => c.seed) =
      (List.range ((d.density * 20).floor.toNat)).map
        (fun k : ℕ => propSeedBase biome.name i chunkX chunkZ + (k : ℤ))) ∧
    (((d.density * 20).floor.toNat : ℤ) = (d.density * 20).floor) ∧
    (d.density = 0 →
      (propDefTrace sinF noise2D biome.layers chunkX chunkZ chunkSize
        ((d.density * 20).floor.toNat) (propSeedBase biome.name i chunkX chunkZ)).length = 0) ∧
    ((propDefTrace sinF noise2D biome.layers chunkX chunkZ chunkSize
        ((d.density * 20).floor.toNat) (propSeedBase biome.name i chunkX chunkZ)).length ≤
      (propDefTrace sinF noise2D biome.layers chunkX chunkZ chunkSize
        ((q * 20).floor.toNat) (propSeedBase biome.name i chunkX chunkZ)).length) ∧
    propSeedBase biome.name i chunkX chunkZ =
      hashString biome.name + (i : ℤ) * 1000 + chunkX * 31 + chunkZ * 17 ∧
    hashString biome.name =
      |biome.name.data.foldl (fun hash c => wrap32 (31 * hash + (c.toNat : ℤ))) 0| := by
  refine ⟨List.mk_mem_enum_iff_getElem?.mpr hget,
    propDefTrace_seeds sinF noise2D biome.layers chunkX chunkZ chunkSize _ _, ?_, ?_, ?_, rfl, ?_⟩
  · rw [ratFloor_eq_intFloor]
    exact Int.toNat_of_nonneg
      (Int.le_floor.mpr (by exact_mod_cast mul_nonneg hd (by norm_num)))
  · intro h0
    rw [propDefTrace_length, ratFloor_eq_intFloor, h0]
    norm_num
  · rw [propDefTrace_length, propDefTrace_length, ratFloor_eq_intFloor, ratFloor_eq_intFloor]
    exact Int.toNat_le_toNat (Int.floor_le_floor (by linarith))
  · unfold hashString
    rw [hashString_foldl_31]

/-- C6 witness: the seed/count facts instantiated on a concrete biome
with one prop definition of density 1/10 at chunk (1, 2). -/
theorem claim_C6_witness :
    ((⟨"AB", [], 0, [⟨"p1", "Plant", "x", 1/10, 5⟩]⟩ : PropBiome).props[0]? =
      some ⟨"p1", "Plant", "x", 1/10, 5⟩) ∧
    (0 : ℚ) ≤ (⟨"p1", "Plant", "x", 1/10, 5⟩ : PropDef).density ∧
    (⟨"p1", "Plant", "x", 1/10, 5⟩ : PropDef).density ≤ 1/2 ∧
    ((propDefTrace (fun _ => 0) (fun _ _ => 0) [] 1 2 100
        (((1/10 : ℚ) * 20).floor.toNat) (propSeedBase "AB" 0 1 2)).map (fun c => c.seed) =
      (List.range (((1/10 : ℚ) * 20).floor.toNat)).map
        (fun k : ℕ => propSeedBase "AB" 0 1 2 + (k : ℤ))) :=
  ⟨by decide, by decide, by decide,
    (claim_C6_seed_and_count (fun _ => 0) (fun _ _ => 0)
      ⟨"AB", [], 0, [⟨"p1", "Plant", "x", 1/10, 5⟩]⟩ 1 2 100 0
      ⟨"p1", "Plant", "x", 1/10, 5⟩ (1/2) (by decide) (by decide) (by decide)).2.1⟩

/-- Normalising any vector with strictly positive y component yields a
unit vector with strictly positive y component. -/
theorem v3normalize_unit_posY (x y z : ℝ) (hy : 0 < y) :
    ((v3normalize x y z).1 ^ 2 + (v3normalize x y z).2.1 ^ 2 + (v3normalize x y z).2.2 ^ 2 = 1) ∧
      0 < (v3normalize x y z).2.1 := by
  have hs : 0 < x * x + y * y + z * z := by nlinarith [mul_self_nonneg x, mul_self_nonneg z]
  have hl : 0 < Real.sqrt (x * x + y * y + z * z) := Real.sqrt_pos.mpr hs
  unfold v3normalize
  rw [if_neg (ne_of_gt hl)]
  refine ⟨?_, div_pos hy hl⟩
  have hll : Real.sqrt (x * x + y * y + z * z) ^ 2 = x * x + y * y + z * z :=
    Real.sq_sqrt hs.le
  field_simp
  linarith [hll]

/-- C10: every surface normal attached to a scattered prop is the
normalisation of `(hL - hR, 2*h, hD - hU)` with fixed step `h = 0.2`, so
it is a unit vector whose y component is strictly positive: the normal
always points to the upward side of the surface. -/
theorem claim_C10_normal_unit_up (sinF : ℚ → ℚ) (noise2D : ℚ → ℚ → ℚ) (biome : PropBiome)
    (chunkX chunkZ : ℤ) (chunkSize : ℚ) (c : PropCand)
    (_hc : c ∈ propSpawned sinF noise2D biome chunkX chunkZ chunkSize) :
    ((attachedNormal c).1 ^ 2 + (attachedNormal c).2.1 ^ 2 + (attachedNormal c).2.2 ^ 2 = 1) ∧
      0 < (attachedNormal c).2.1 := by
  unfold attachedNormal
  exact v3normalize_unit_posY _ _ _ (by norm_num)

/-- C10 witness: a concrete spawned prop of a one-definition biome, whose
attached normal is unit length with positive y component. -/
theorem claim_C10_witness :
    ((⟨0, -50, -50, -50, -50, 0, 0, 0⟩ : PropCand) ∈
      propSpawned (fun _ => 0) (fun _ _ => 0) ⟨"", [], -1, [⟨"p1", "P", "x", 1/20, 1⟩]⟩ 0 0 100) ∧
    ((attachedNormal ⟨0, -50, -50, -50, -50, 0, 0, 0⟩).1 ^ 2 +
        (attachedNormal ⟨0, -50, -50, -50, -50, 0, 0, 0⟩).2.1 ^ 2 +
        (attachedNormal ⟨0, -50, -50, -50, -50, 0, 0, 0⟩).2.2 ^ 2 = 1) ∧
      0 < (attachedNormal ⟨0, -50, -50, -50, -50, 0, 0, 0⟩).2.1 :=
  ⟨by decide,
    claim_C10_normal_unit_up (fun _ => 0) (fun _ _ => 0) ⟨"", [], -1, [⟨"p1", "P", "x", 1/20, 1⟩]⟩
      0 0 100 ⟨0, -50, -50, -50, -50, 0, 0, 0⟩ (by decide)⟩

/-- The per-axis toroidal wrap of the weather step
(`src/components/Weather.tsx` lines 138-148), with `boxSize = 100`: both
threshold tests read the pre-wrap relative position, so at most one
translation of `boxSize` happens per axis per step. -/
def weatherWrapAxis (pos obs : ℚ) : ℚ :=
  let rel := pos - obs
  let pos1 := if rel > 50 then pos - 100 else pos
  if rel < -50 then pos1 + 100 else pos1

/-- One weather-step position update for one particle (lines 120-150):
integrate the velocity (`pos += v * delta * 15`; for spores the x/z
velocity includes the sinusoidal wobble adjustment, covered here by
quantifying over the velocity), then wrap each axis around the observer. -/
def weatherStep (p v : ℚ × ℚ × ℚ) (delta : ℚ) (obs : ℚ × ℚ × ℚ) : ℚ × ℚ × ℚ :=
  (weatherWrapAxis (p.1 + v.1 * delta * 15) obs.1,
   weatherWrapAxis (p.2.1 + v.2.1 * delta * 15) obs.2.1,
   weatherWrapAxis (p.2.2 + v.2.2 * delta * 15) obs.2.2)

/-- Membership in the cube of side 100 centered on the observer. -/
def inCube (p obs : ℚ × ℚ × ℚ) : Prop :=
  obs.1 - 50 ≤ p.1 ∧ p.1 ≤ obs.1 + 50 ∧
  obs.2.1 - 50 ≤ p.2.1 ∧ p.2.1 ≤ obs.2.1 + 50 ∧
  obs.2.2 - 50 ≤ p.2.2 ∧ p.2.2 ≤ obs.2.2 + 50

/-- C9 fails as stated: a particle overshooting the cube by more than one
cube length is translated by exactly one `cubeSize` (here 200 becomes
100) but does not land back inside the cube around the observer. -/
theorem claim_C9_counterexample :
    weatherStep (200, 0, 0) (0, 0, 0) 0 (0, 0, 0) = (100, 0, 0) ∧
      ¬ inCube (weatherStep (200, 0, 0) (0, 0, 0) 0 (0, 0, 0)) (0, 0, 0) := by
  constructor
  · decide
  · intro h
    exact absurd h.2.1 (by decide)

/-- One axis of the wrap: under a post-motion overshoot of at most one
cube length, the wrap translates by exactly `cubeSize` on a violated
axis and lands inside the half-cube interval. -/
theorem weatherWrapAxis_spec (m obs : ℚ) (h1 : -150 ≤ m - obs) (h2 : m - obs ≤ 150) :
    (obs - 50 ≤ weatherWrapAxis m obs ∧ weatherWrapAxis m obs ≤ obs + 50) ∧
      weatherWrapAxis m obs =
        (if m - obs > 50 then m - 100 else if m - obs < -50 then m + 100 else m) := by
  unfold weatherWrapAxis
  dsimp only
  split_ifs <;>
    refine ⟨⟨by linarith, by linarith⟩, by first | rfl | linarith⟩

/-- C9 amended: after one weather step, on every axis whose post-motion
position exceeds the observer by more than `cubeSize/2` the particle is
translated by exactly `cubeSize` toward the observer (and by `cubeSize`
the other way when below `observer - cubeSize/2`); provided the
post-motion overshoot is at most `cubeSize` beyond the half-cube
(within 150 of the observer per axis), the particle ends the step inside
the cube of side `cubeSize` centered on the observer. -/
theorem claim_C9_amended (p v obs : ℚ × ℚ × ℚ) (delta : ℚ)
    (hx1 : -150 ≤ p.1 + v.1 * delta * 15 - obs.1)
    (hx2 : p.1 + v.1 * delta * 15 - obs.1 ≤ 150)
    (hy1 : -150 ≤ p.2.1 + v.2.1 * delta * 15 - obs.2.1)
    (hy2 : p.2.1 + v.2.1 * delta * 15 - obs.2.1 ≤ 150)
    (hz1 : -150 ≤ p.2.2 + v.2.2 * delta * 15 - obs.2.2)
    (hz2 : p.2.2 + v.2.2 * delta * 15 - obs.2.2 ≤ 150) :
    inCube (weatherStep p v delta obs) obs ∧
      weatherStep p v delta obs =
        ((if p.1 + v.1 * delta * 15 - obs.1 > 50 then p.1 + v.1 * delta * 15 - 100
          else if p.1 + v.1 * delta * 15 - obs.1 < -50 then p.1 + v.1 * delta * 15 + 100
          else p.1 + v.1 * delta * 15),
         (if p.2.1 + v.2.1 * delta * 15 - obs.2.1 > 50 then p.2.1 + v.2.1 * delta * 15 - 100
          else if p.2.1 + v.2.1 * delta * 15 - obs.2.1 < -50 then p.2.1 + v.2.1 * delta * 15 + 100
          else p.2.1 + v.2.1 * delta * 15),
         (if p.2.2 + v.2.2 * delta * 15 - obs.2.2 > 50 then p.2.2 + v.2.2 * delta * 15 - 100
          else if p.2.2 + v.2.2 * delta * 15 - obs.2.2 < -50 then p.2.2 + v.2.2 * delta * 15 + 100
          else p.2.2 + v.2.2 * delta * 15)) := by
  obtain ⟨bx, ex⟩ := weatherWrapAxis_spec (p.1 + v.1 * delta * 15) obs.1 hx1 hx2
  obtain ⟨by', ey⟩ := weatherWrapAxis_spec (p.2.1 + v.2.1 * delta * 15) obs.2.1 hy1 hy2
  obtain ⟨bz, ez⟩ := weatherWrapAxis_spec (p.2.2 + v.2.2 * delta * 15) obs.2.2 hz1 hz2
  refine ⟨⟨bx.1, bx.2, by'.1, by'.2, bz.1, bz.2⟩, ?_⟩
  unfold weatherStep
  rw [ex, ey, ez]

/-- C9 witness: the amended wrap behavior at a concrete particle that
overshoots by 70 on the x axis and -70 on the z axis. -/
theorem claim_C9_witness :
    ((-150 : ℚ) ≤ (120 : ℚ) + 0 * 0 * 15 - 0) ∧ ((120 : ℚ) + 0 * 0 * 15 - 0 ≤ 150) ∧
    ((-150 : ℚ) ≤ (0 : ℚ) + 0 * 0 * 15 - 0) ∧ ((0 : ℚ) + 0 * 0 * 15 - 0 ≤ 150) ∧
    ((-150 : ℚ) ≤ (-120 : ℚ) + 0 * 0 * 15 - 0) ∧ ((-120 : ℚ) + 0 * 0 * 15 - 0 ≤ 150) ∧
    (inCube (weatherStep (120, 0, -120) (0, 0, 0) 0 (0, 0, 0)) (0, 0, 0) ∧
      weatherStep (120, 0, -120) (0, 0, 0) 0 (0, 0, 0) =
        ((if (120 : ℚ) + 0 * 0 * 15 - 0 > 50 then (120 : ℚ) + 0 * 0 * 15 - 100
          else if (120 : ℚ) + 0 * 0 * 15 - 0 < -50 then (120 : ℚ) + 0 * 0 * 15 + 100
          else (120 : ℚ) + 0 * 0 * 15),
         (if (0 : ℚ) + 0 * 0 * 15 - 0 > 50 then (0 : ℚ) + 0 * 0 * 15 - 100
          else if (0 : ℚ) + 0 * 0 * 15 - 0 < -50 then (0 : ℚ) + 0 * 0 * 15 + 100
          else (0 : ℚ) + 0 * 0 * 15),
         (if (-120 : ℚ) + 0 * 0 * 15 - 0 > 50 then (-120 : ℚ) + 0 * 0 * 15 - 100
          else if (-120 : ℚ) + 0 * 0 * 15 - 0 < -50 then (-120 : ℚ) + 0 * 0 * 15 + 100
          else (-120 : ℚ) + 0 * 0 * 15))) :=
  ⟨by decide, by decide, by decide, by decide, by decide, by decide,
    claim_C9_amended (120, 0, -120) (0, 0, 0) (0, 0, 0) 0
      (by decide) (by decide) (by decide) (by decide) (by decide) (by decide)⟩
